import Mathlib

/-!
Shallow embedding of the flashbots boost-relay auction core and proposer API
(`services/api`: handleSubmitNewBlock, handleGetHeader, handleGetPayload,
handleRegisterValidator, BlockSimulationRateLimiter.send), together with the
parts of the datastore the handlers consume.  External collaborators (BLS
verification, the block simulator, the wall clock) enter as explicit data in
environment records; machine integers are modelled as Nat (slot numbers and
timestamps are u64 counters far from overflow; u256 bid values only compare).
-/

namespace BoostRelay

/-- BidTrace message of a builder block submission: the fields of
`types.BidTrace` that the submission handler reads. -/
structure BidTrace where
  slot : Nat
  parentHash : String
  blockHash : String
  builderPubkey : String
  proposerPubkey : String
  proposerFeeRecipient : String
  value : Nat
deriving DecidableEq, Repr

/-- Execution payload fields the handlers read: block hash, parent hash,
fee recipient and the transaction list (only its length matters). -/
structure ExecutionPayload where
  blockHash : String
  parentHash : String
  feeRecipient : String
  transactions : List String
deriving DecidableEq, Repr

/-- A decoded `types.BuilderSubmitBlockRequest`: message and execution payload
are pointers in Go, hence Option here.  The source request type carries no
cancellation flag of any kind. -/
structure BuilderSubmitBlockRequest where
  message : Option BidTrace
  executionPayload : Option ExecutionPayload
deriving DecidableEq, Repr

/-- AuctionKey (slot, parent_hash, proposer_pubkey): the key under which
`GetGetHeaderResponse` and `SaveBlockSubmission` address the top bid. -/
structure AuctionKey where
  slot : Nat
  parentHash : String
  proposerPubkey : String
deriving DecidableEq, Repr

/-- BlockKey (slot, proposer_pubkey, block_hash): the key under which the
payload escrow is addressed by `GetGetPayloadResponse`. -/
structure BlockKey where
  slot : Nat
  proposerPubkey : String
  blockHash : String
deriving DecidableEq, Repr

/-- The relay-signed builder bid stored in the top-bid slot
(`types.SignedBuilderBid`: value, payload header, relay pubkey). -/
structure SignedBuilderBid where
  value : Nat
  headerBlockHash : String
  pubkey : String
deriving DecidableEq, Repr

/-- The cache state the auction handlers touch: top bids per AuctionKey and
the payload escrow per BlockKey.  Writes prepend; reads take the first hit,
so later writes shadow earlier ones. -/
structure RelayStore where
  topBids : List (AuctionKey × SignedBuilderBid)
  payloads : List (BlockKey × ExecutionPayload)
deriving DecidableEq, Repr

def lookupTopBid : List (AuctionKey × SignedBuilderBid) → AuctionKey → Option SignedBuilderBid
  | [], _ => none
  | (k, v) :: rest, key => if k = key then some v else lookupTopBid rest key

def lookupPayload : List (BlockKey × ExecutionPayload) → BlockKey → Option ExecutionPayload
  | [], _ => none
  | (k, v) :: rest, key => if k = key then some v else lookupPayload rest key

/-- Modelled from the spec: `datastore.GetGetHeaderResponse` (the redis-backed
datastore implementation is not under src/; the spec gives
`save_top_bid(AuctionKey, SignedHeader, value)` with `get_top_bid_value`):
a pure read of the top-bid record for the AuctionKey. -/
def RelayStore.getGetHeaderResponse (st : RelayStore) (slot : Nat)
    (parentHash proposerPubkey : String) : Option SignedBuilderBid :=
  lookupTopBid st.topBids ⟨slot, parentHash, proposerPubkey⟩

/-- Modelled from the spec: `datastore.GetGetPayloadResponse` (implementation
not under src/): a pure read of the payload escrow by BlockKey; reading does
not delete the entry (TTL handles lifetime). -/
def RelayStore.getGetPayloadResponse (st : RelayStore) (slot : Nat)
    (proposerPubkey blockHash : String) : Option ExecutionPayload :=
  lookupPayload st.payloads ⟨slot, proposerPubkey, blockHash⟩

/-- Modelled from the spec: `datastore.SaveBlockSubmission` (implementation not
under src/): stores the signed header in the top-bid slot for the AuctionKey
and the execution payload in the escrow keyed by BlockKey. -/
def RelayStore.saveBlockSubmission (st : RelayStore) (msg : BidTrace)
    (ep : ExecutionPayload) (bid : SignedBuilderBid) : RelayStore :=
  { topBids := (⟨msg.slot, msg.parentHash, msg.proposerPubkey⟩, bid) :: st.topBids
    payloads := (⟨msg.slot, msg.proposerPubkey, msg.blockHash⟩, ep) :: st.payloads }

/-- `VerifyBuilderBlockSubmission`: the sanity checks comparing message fields
against the execution payload, returning the first mismatch error. -/
def VerifyBuilderBlockSubmission (msg : BidTrace) (ep : ExecutionPayload) : Option String :=
  if msg.blockHash ≠ ep.blockHash then some "blockHash mismatch"
  else if msg.parentHash ≠ ep.parentHash then some "parentHash mismatch"
  else if msg.proposerFeeRecipient ≠ ep.feeRecipient then some "feeRecipient mismatch"
  else none

/-- `BuilderSubmitBlockRequestToSignedBuilderBid`: the relay signs a builder
bid over the payload header with its own key; signing (external BLS) is
modelled as total. -/
def BuilderSubmitBlockRequestToSignedBuilderBid (msg : BidTrace)
    (ep : ExecutionPayload) (relayPubkey : String) : SignedBuilderBid :=
  ⟨msg.value, ep.blockHash, relayPubkey⟩

/-- Outcome of the external simulator RPC: transport failure, or a JSON-RPC
reply whose `error` field may be set. -/
inductive SimOutcome
  | rpcFailure (msg : String)
  | reply (err : Option String)
deriving DecidableEq, Repr

/-- Errors `BlockSimulationRateLimiter.send` can return. -/
inductive SendError
  | requestClosed
  | rpcFailure (msg : String)
  | simulationFailed (msg : String)
deriving DecidableEq, Repr

/-- The `error.Error()` string of each `send` error: `ErrRequestClosed` is
"request context closed"; a simulator error is wrapped as
`fmt.Errorf("%w: %s", ErrSimulationFailed, message)`. -/
def sendErrorMessage : SendError → String
  | SendError.requestClosed => "request context closed"
  | SendError.rpcFailure m => m
  | SendError.simulationFailed m => "simulation failed: " ++ m

/-- `BlockSimulationRateLimiter.send` after the semaphore wait: if the caller
context is already cancelled it returns ErrRequestClosed; otherwise it issues
the JSON-RPC call and maps a non-nil reply error to ErrSimulationFailed.  The
second component records whether the JSON-RPC request was issued. -/
def blockSimRateLimiterSend (ctxCancelled : Bool) (sim : SimOutcome) :
    Option SendError × Bool :=
  if ctxCancelled then (some SendError.requestClosed, false)
  else
    match sim with
    | SimOutcome.rpcFailure m => (some (SendError.rpcFailure m), true)
    | SimOutcome.reply (some m) => (some (SendError.simulationFailed m), true)
    | SimOutcome.reply none => (none, true)

/-- Environment of one handleSubmitNewBlock call: builder status from the
cache, feature flag, the relay key, and the outcomes of the external BLS
signature check, context cancellation and simulation. -/
structure SubmitEnv where
  builderIsHighPrio : Bool
  builderIsBlacklisted : Bool
  ffDisableLowPrioBuilders : Bool
  relayPubkey : String
  sigOk : Bool
  ctxCancelled : Bool
  simOutcome : SimOutcome
deriving DecidableEq, Repr

/-- A row written by `db.SaveBuilderBlockSubmission(payload, simErr,
isMostProfitableBlock)`: the trace, the simulation error (none on success)
and the most-profitable flag. -/
structure BuilderSubmissionAuditRow where
  trace : BidTrace
  simError : Option String
  isMostProfitable : Bool
deriving DecidableEq, Repr

/-- The `sim_success` column of the audit schema: true iff the recorded
simulation error is nil. -/
def BuilderSubmissionAuditRow.simSuccessFlag (r : BuilderSubmissionAuditRow) : Bool :=
  r.simError.isNone

/-- Observable outcome of one handleSubmitNewBlock call: HTTP status, error
body, milliseconds slept, audit rows written, and the resulting store. -/
structure SubmitResult where
  status : Nat
  errorMsg : Option String
  sleptMs : Nat
  auditRows : List BuilderSubmissionAuditRow
  store : RelayStore
deriving DecidableEq, Repr

/-- `handleSubmitNewBlock`, step for step: nil checks, builder blacklist
(sleep 200ms, 200, no state change), low-prio rejection under the feature
flag, past-slot 400, zero-value / empty-block 200, sanity checks, signature
check, the simulation gate (an audit row is deferred from this point on),
then top-bid comparison: replace iff no previous bid or strictly greater
value, else keep and return 200. -/
def handleSubmitNewBlock (env : SubmitEnv) (headSlot : Nat) (st : RelayStore)
    (payload : BuilderSubmitBlockRequest) : SubmitResult :=
  match payload.message, payload.executionPayload with
  | none, _ => ⟨400, some "missing parts of the payload", 0, [], st⟩
  | some _, none => ⟨400, some "missing parts of the payload", 0, [], st⟩
  | some msg, some ep =>
    if env.builderIsBlacklisted = true then
      ⟨200, none, 200, [], st⟩
    else if (env.ffDisableLowPrioBuilders && !env.builderIsHighPrio) = true then
      ⟨200, none, 200, [], st⟩
    else if msg.slot ≤ headSlot then
      ⟨400, some "submission for past slot", 0, [], st⟩
    else if msg.value = 0 ∨ ep.transactions.length = 0 then
      ⟨200, none, 0, [], st⟩
    else
      match VerifyBuilderBlockSubmission msg ep with
      | some e => ⟨400, some e, 0, [], st⟩
      | none =>
        if env.sigOk = false then
          ⟨400, some "invalid signature", 0, [], st⟩
        else
          match blockSimRateLimiterSend env.ctxCancelled env.simOutcome with
          | (some simErr, _) =>
            ⟨400, some (sendErrorMessage simErr), 0,
              [⟨msg, some (sendErrorMessage simErr), false⟩], st⟩
          | (none, _) =>
            match st.getGetHeaderResponse msg.slot msg.parentHash msg.proposerPubkey with
            | none =>
              ⟨200, none, 0, [⟨msg, none, true⟩],
                st.saveBlockSubmission msg ep
                  (BuilderSubmitBlockRequestToSignedBuilderBid msg ep env.relayPubkey)⟩
            | some b =>
              if b.value < msg.value then
                ⟨200, none, 0, [⟨msg, none, true⟩],
                  st.saveBlockSubmission msg ep
                    (BuilderSubmitBlockRequestToSignedBuilderBid msg ep env.relayPubkey)⟩
              else
                ⟨200, none, 0, [⟨msg, none, false⟩], st⟩

/-- Result of handleGetHeader: a 400 with message, a 204, or a 200 with the
stored signed builder bid. -/
inductive GetHeaderResult
  | badRequest (msg : String)
  | noContent
  | ok (bid : SignedBuilderBid)
deriving DecidableEq, Repr

/-- `handleGetHeader` after the numeric slot parse: length checks on the path
parameters, the stale-slot 400, the FORCE_GET_HEADER_204 flag, then the
top-bid read: absent or zero-value bids give 204. -/
def handleGetHeader (ff204 : Bool) (headSlot : Nat) (st : RelayStore)
    (slot : Nat) (parentHash proposerPubkey : String) : GetHeaderResult :=
  if proposerPubkey.length ≠ 98 then GetHeaderResult.badRequest "invalid pubkey"
  else if parentHash.length ≠ 66 then GetHeaderResult.badRequest "invalid hash"
  else if slot < headSlot then GetHeaderResult.badRequest "slot is too old"
  else if ff204 = true then GetHeaderResult.noContent
  else
    match st.getGetHeaderResponse slot parentHash proposerPubkey with
    | none => GetHeaderResult.noContent
    | some bid =>
      if bid.value = 0 then GetHeaderResult.noContent else GetHeaderResult.ok bid

/-- A decoded `types.SignedBlindedBeaconBlock`: the fields handleGetPayload
reads (slot, proposer index, the header block hash). -/
structure SignedBlindedBeaconBlock where
  slot : Nat
  proposerIndex : Nat
  blockHash : String
deriving DecidableEq, Repr

/-- Environment of one handleGetPayload call: the known-validator index map,
the pubkeys on which `types.HexToPubkey` fails, the outcome of the external
proposer-signature check, and the publish feature flag. -/
structure GetPayloadEnv where
  knownValidatorsByIndex : List (Nat × String)
  unparsablePubkeys : List String
  sigOk : Bool
  ffDisableBlockPublishing : Bool
deriving DecidableEq, Repr

def lookupPubkeyByIndex : List (Nat × String) → Nat → Option String
  | [], _ => none
  | (i, pk) :: rest, idx => if i = idx then some pk else lookupPubkeyByIndex rest idx

/-- The two background goroutines handleGetPayload spawns after responding:
the delivered-payload audit write and the beacon-block publish. -/
inductive BgTask
  | saveDeliveredPayload (slot : Nat) (proposerPubkey blockHash : String)
  | publishBlock (blockHash : String)
deriving DecidableEq, Repr

def BgTask.isSave : BgTask → Bool
  | BgTask.saveDeliveredPayload _ _ _ => true
  | _ => false

def BgTask.isPublish : BgTask → Bool
  | BgTask.publishBlock _ => true
  | _ => false

/-- Response of handleGetPayload: a 400 with message or a 200 with the
escrowed execution payload. -/
inductive GetPayloadResp
  | badRequest (msg : String)
  | ok (payload : ExecutionPayload)
deriving DecidableEq, Repr

/-- Observable outcome of one handleGetPayload call: the response, the
background goroutines in the order they are spawned (no execution ordering
between them is implied), and the resulting store. -/
structure GetPayloadResult where
  response : GetPayloadResp
  spawned : List BgTask
  store : RelayStore
deriving DecidableEq, Repr

/-- `handleGetPayload` after JSON decoding: proposer-index resolution, pubkey
conversion, proposer-signature verification, the escrow read, then the 200
response followed by spawning the audit-write goroutine and the publish
goroutine.  Go gives no happens-before edge between the two goroutines'
bodies, so `spawned` records spawn order only. -/
def handleGetPayload (env : GetPayloadEnv) (st : RelayStore)
    (blk : SignedBlindedBeaconBlock) : GetPayloadResult :=
  match lookupPubkeyByIndex env.knownValidatorsByIndex blk.proposerIndex with
  | none => ⟨GetPayloadResp.badRequest "could not match proposer index to pubkey", [], st⟩
  | some pk =>
    if pk ∈ env.unparsablePubkeys then
      ⟨GetPayloadResp.badRequest "could not convert pubkey to types.PublicKey", [], st⟩
    else if env.sigOk = false then
      ⟨GetPayloadResp.badRequest "could not verify payload signature", [], st⟩
    else
      match st.getGetPayloadResponse blk.slot pk blk.blockHash with
      | none => ⟨GetPayloadResp.badRequest "no execution payload for this request", [], st⟩
      | some p =>
        ⟨GetPayloadResp.ok p,
          [BgTask.saveDeliveredPayload blk.slot pk blk.blockHash,
            BgTask.publishBlock blk.blockHash], st⟩

/-- A schedule of the background tasks satisfies the audit-before-publish
ordering when no delivered-payload write occurs after a publish has been
initiated. -/
def auditBeforePublish : List BgTask → Bool
  | [] => true
  | t :: rest => (!t.isPublish || !(rest.any BgTask.isSave)) && auditBeforePublish rest

/-- One entry of a registerValidator batch, with the outcomes of the external
checks the handler performs on it: message non-nil, the wall-clock bound on
the timestamp, known-validator membership, and BLS verification (which can
return ok, not-ok, or an error). -/
inductive SigCheck
  | valid
  | invalid
  | errored
deriving DecidableEq, Repr

structure RegEntry where
  hasMessage : Bool
  pubkey : String
  timestamp : Nat
  tooFarInFuture : Bool
  isKnownValidator : Bool
  sig : SigCheck
deriving DecidableEq, Repr

/-- `GetValidatorRegistrationTimestamp`: the stored registration timestamp of
a pubkey, 0 when none is found. -/
def getRegTimestamp : List (String × Nat) → String → Nat
  | [], _ => 0
  | (pk, ts) :: rest, p => if pk = p then ts else getRegTimestamp rest p

/-- Modelled from the spec: `SetValidatorRegistrationTimestampIfNewer` (the
redis implementation is not under src/; the spec requires `set_registration`
conditional on a strictly newer timestamp and `TestRedisValidatorRegistration`
exercises exactly that): the write happens only when the incoming timestamp is
strictly greater than the stored one. -/
def setValidatorRegistrationTimestampIfNewer (st : List (String × Nat))
    (pk : String) (ts : Nat) : List (String × Nat) :=
  if getRegTimestamp st pk < ts then (pk, ts) :: st else st

/-- The handleRegisterValidator loop over a batch: entries without a message,
with a too-far-future timestamp or from an unknown validator abort the whole
request (400, fail-fast); an entry whose timestamp is not newer than the
stored one is skipped silently; a signature error skips the entry; a failed
signature check aborts; a valid entry is saved through the newer-timestamp
path. -/
def handleRegisterValidator (st : List (String × Nat)) :
    List RegEntry → List (String × Nat)
  | [] => st
  | e :: rest =>
    if e.hasMessage = false then st
    else if e.tooFarInFuture = true then st
    else if e.isKnownValidator = false then st
    else if e.timestamp ≤ getRegTimestamp st e.pubkey then
      handleRegisterValidator st rest
    else
      match e.sig with
      | SigCheck.errored => handleRegisterValidator st rest
      | SigCheck.invalid => st
      | SigCheck.valid =>
        handleRegisterValidator
          (setValidatorRegistrationTimestampIfNewer st e.pubkey e.timestamp) rest

/-- The timestamps of the entries for pubkey p that the batch actually saves,
mirroring the control flow of handleRegisterValidator. -/
def acceptedTimestamps (st : List (String × Nat)) (p : String) :
    List RegEntry → List Nat
  | [] => []
  | e :: rest =>
    if e.hasMessage = false then []
    else if e.tooFarInFuture = true then []
    else if e.isKnownValidator = false then []
    else if e.timestamp ≤ getRegTimestamp st e.pubkey then
      acceptedTimestamps st p rest
    else
      match e.sig with
      | SigCheck.errored => acceptedTimestamps st p rest
      | SigCheck.invalid => []
      | SigCheck.valid =>
        (if e.pubkey = p then [e.timestamp] else []) ++
          acceptedTimestamps
            (setValidatorRegistrationTimestampIfNewer st e.pubkey e.timestamp) p rest

/-- After the nil, builder-status, slot, emptiness, sanity and signature gates
all pass, handleSubmitNewBlock is the simulation dispatch followed by the
top-bid comparison. -/
theorem submit_after_gates (env : SubmitEnv) (headSlot : Nat) (st : RelayStore)
    (p : BuilderSubmitBlockRequest) (msg : BidTrace) (ep : ExecutionPayload)
    (hm : p.message = some msg) (hep : p.executionPayload = some ep)
    (hbl : env.builderIsBlacklisted = false)
    (hlp : (env.ffDisableLowPrioBuilders && !env.builderIsHighPrio) = false)
    (hslot : headSlot < msg.slot)
    (hv : ¬(msg.value = 0 ∨ ep.transactions.length = 0))
    (hsan : VerifyBuilderBlockSubmission msg ep = none)
    (hsig : env.sigOk = true) :
    handleSubmitNewBlock env headSlot st p =
      match blockSimRateLimiterSend env.ctxCancelled env.simOutcome with
      | (some simErr, _) =>
        ⟨400, some (sendErrorMessage simErr), 0,
          [⟨msg, some (sendErrorMessage simErr), false⟩], st⟩
      | (none, _) =>
        match st.getGetHeaderResponse msg.slot msg.parentHash msg.proposerPubkey with
        | none =>
          ⟨200, none, 0, [⟨msg, none, true⟩],
            st.saveBlockSubmission msg ep
              (BuilderSubmitBlockRequestToSignedBuilderBid msg ep env.relayPubkey)⟩
        | some b =>
          if b.value < msg.value then
            ⟨200, none, 0, [⟨msg, none, true⟩],
              st.saveBlockSubmission msg ep
                (BuilderSubmitBlockRequestToSignedBuilderBid msg ep env.relayPubkey)⟩
          else
            ⟨200, none, 0, [⟨msg, none, false⟩], st⟩ := by
  have hslot' : ¬ msg.slot ≤ headSlot := by omega
  simp only [handleSubmitNewBlock, hm, hep, hbl, hlp, hslot', hv, hsan, hsig,
    if_false, if_true, Bool.false_eq_true, Bool.true_eq_false, ite_false, ite_true]

/-- A benign submission environment: builder in normal status, no feature
flags, valid signature, live context, passing simulation. -/
def submitEnvOk : SubmitEnv :=
  ⟨false, false, false, "relayPk", true, false, SimOutcome.reply none⟩

/-- A blacklisted-builder environment, otherwise benign. -/
def submitEnvBlacklisted : SubmitEnv :=
  ⟨false, true, false, "relayPk", true, false, SimOutcome.reply none⟩

/-- An environment in which the simulator replies with an error. -/
def submitEnvSimFail : SubmitEnv :=
  ⟨false, false, false, "relayPk", true, false, SimOutcome.reply (some "bad block")⟩

def emptyStore : RelayStore := ⟨[], []⟩

/-- A first submission from builder a at slot 5, value 10. -/
def msgHigh : BidTrace := ⟨5, "ph", "bh1", "builderA", "prop", "fee", 10⟩

def epHigh : ExecutionPayload := ⟨"bh1", "ph", "fee", ["tx1"]⟩

def reqHigh : BuilderSubmitBlockRequest := ⟨some msgHigh, some epHigh⟩

/-- A later submission from the same builder for the same auction, value 5. -/
def msgLowSameBuilder : BidTrace := ⟨5, "ph", "bh2", "builderA", "prop", "fee", 5⟩

def epLowSameBuilder : ExecutionPayload := ⟨"bh2", "ph", "fee", ["tx2"]⟩

def reqLowSameBuilder : BuilderSubmitBlockRequest :=
  ⟨some msgLowSameBuilder, some epLowSameBuilder⟩

/-- The store after the value-10 submission was accepted on an empty store. -/
def storeAfterHigh : RelayStore :=
  (handleSubmitNewBlock submitEnvOk 0 emptyStore reqHigh).store

/-- Claim C7: a submission whose builder is blacklisted sleeps 200 ms, then
gets HTTP 200 with no state change: no bid stored, no payload escrowed, and
no submission audit row written (the audit defer is registered only after the
signature check, which a blacklisted submission never reaches). -/
theorem c7_blacklisted_masked_noop (env : SubmitEnv) (headSlot : Nat)
    (st : RelayStore) (p : BuilderSubmitBlockRequest)
    (msg : BidTrace) (ep : ExecutionPayload)
    (hm : p.message = some msg) (hep : p.executionPayload = some ep)
    (hbl : env.builderIsBlacklisted = true) :
    handleSubmitNewBlock env headSlot st p = ⟨200, none, 200, [], st⟩ := by
  simp only [handleSubmitNewBlock, hm, hep, hbl, if_true, ite_true]

theorem c7_blacklisted_masked_noop_witness :
    handleSubmitNewBlock submitEnvBlacklisted 0 emptyStore reqHigh
      = ⟨200, none, 200, [], emptyStore⟩ :=
  c7_blacklisted_masked_noop submitEnvBlacklisted 0 emptyStore reqHigh
    msgHigh epHigh rfl rfl rfl

/-- Claim C6: a cancelled caller context makes the simulation gate return the
request-closed error without issuing the simulator call (second component
false), and a simulator reply with a non-nil error field makes the handler
respond 400 carrying the simulator message while persisting exactly one
submission audit row whose sim_success flag is false. -/
theorem c6_sim_gate_errors (env : SubmitEnv) (headSlot : Nat) (st : RelayStore)
    (p : BuilderSubmitBlockRequest) (msg : BidTrace) (ep : ExecutionPayload)
    (m : String)
    (hm : p.message = some msg) (hep : p.executionPayload = some ep)
    (hbl : env.builderIsBlacklisted = false)
    (hlp : (env.ffDisableLowPrioBuilders && !env.builderIsHighPrio) = false)
    (hslot : headSlot < msg.slot)
    (hv : ¬(msg.value = 0 ∨ ep.transactions.length = 0))
    (hsan : VerifyBuilderBlockSubmission msg ep = none)
    (hsig : env.sigOk = true) :
    (blockSimRateLimiterSend true env.simOutcome
      = (some SendError.requestClosed, false)) ∧
    (env.ctxCancelled = false → env.simOutcome = SimOutcome.reply (some m) →
      handleSubmitNewBlock env headSlot st p
          = ⟨400, some ("simulation failed: " ++ m), 0,
              [⟨msg, some ("simulation failed: " ++ m), false⟩], st⟩ ∧
        (⟨msg, some ("simulation failed: " ++ m), false⟩ :
            BuilderSubmissionAuditRow).simSuccessFlag = false) := by
  refine ⟨rfl, fun hctx hsim => ⟨?_, rfl⟩⟩
  rw [submit_after_gates env headSlot st p msg ep hm hep hbl hlp hslot hv hsan hsig]
  simp only [hctx, hsim, blockSimRateLimiterSend, sendErrorMessage,
    if_false, Bool.false_eq_true, ite_false]

theorem c6_sim_gate_errors_witness :
    (blockSimRateLimiterSend true submitEnvSimFail.simOutcome
      = (some SendError.requestClosed, false)) ∧
    (handleSubmitNewBlock submitEnvSimFail 0 emptyStore reqHigh
        = ⟨400, some ("simulation failed: " ++ "bad block"), 0,
            [⟨msgHigh, some ("simulation failed: " ++ "bad block"), false⟩],
            emptyStore⟩ ∧
      (⟨msgHigh, some ("simulation failed: " ++ "bad block"), false⟩ :
          BuilderSubmissionAuditRow).simSuccessFlag = false) := by
  have h := c6_sim_gate_errors submitEnvSimFail 0 emptyStore reqHigh
    msgHigh epHigh "bad block" rfl rfl rfl rfl (by decide) (by decide) rfl rfl
  exact ⟨h.1, h.2 rfl rfl⟩

/-- Claim C3: once a submission has passed all the gates, the top bid for its
AuctionKey is replaced exactly when there is no previous bid or the incoming
value is strictly greater; on an equal value the existing top bid is kept,
and in every one of these cases the handler still returns HTTP 200. -/
theorem c3_replace_iff_strictly_greater (env : SubmitEnv) (headSlot : Nat)
    (st : RelayStore) (p : BuilderSubmitBlockRequest)
    (msg : BidTrace) (ep : ExecutionPayload)
    (hm : p.message = some msg) (hep : p.executionPayload = some ep)
    (hbl : env.builderIsBlacklisted = false)
    (hlp : (env.ffDisableLowPrioBuilders && !env.builderIsHighPrio) = false)
    (hslot : headSlot < msg.slot)
    (hv : ¬(msg.value = 0 ∨ ep.transactions.length = 0))
    (hsan : VerifyBuilderBlockSubmission msg ep = none)
    (hsig : env.sigOk = true)
    (hctx : env.ctxCancelled = false)
    (hsim : env.simOutcome = SimOutcome.reply none) :
    (handleSubmitNewBlock env headSlot st p).status = 200 ∧
    (handleSubmitNewBlock env headSlot st p).store.getGetHeaderResponse
        msg.slot msg.parentHash msg.proposerPubkey
      = match st.getGetHeaderResponse msg.slot msg.parentHash msg.proposerPubkey with
        | none =>
          some (BuilderSubmitBlockRequestToSignedBuilderBid msg ep env.relayPubkey)
        | some b =>
          if b.value < msg.value then
            some (BuilderSubmitBlockRequestToSignedBuilderBid msg ep env.relayPubkey)
          else some b := by
  rw [submit_after_gates env headSlot st p msg ep hm hep hbl hlp hslot hv hsan hsig]
  simp only [hctx, hsim, blockSimRateLimiterSend, if_false, Bool.false_eq_true,
    ite_false]
  cases hprev : st.getGetHeaderResponse msg.slot msg.parentHash msg.proposerPubkey with
  | none =>
    simp only [RelayStore.saveBlockSubmission, RelayStore.getGetHeaderResponse,
      lookupTopBid, if_pos rfl]
    exact ⟨trivial, rfl⟩
  | some b =>
    by_cases hlt : b.value < msg.value
    · simp only [hlt, ite_true, RelayStore.saveBlockSubmission,
        RelayStore.getGetHeaderResponse, lookupTopBid, if_pos rfl]
      exact ⟨trivial, trivial⟩
    · simp only [hlt, ite_false]
      exact ⟨trivial, hprev⟩

theorem c3_replace_iff_strictly_greater_witness :
    (handleSubmitNewBlock submitEnvOk 0 storeAfterHigh reqLowSameBuilder).status
        = 200 ∧
    (handleSubmitNewBlock submitEnvOk 0 storeAfterHigh
          reqLowSameBuilder).store.getGetHeaderResponse 5 "ph" "prop"
      = match storeAfterHigh.getGetHeaderResponse 5 "ph" "prop" with
        | none =>
          some (BuilderSubmitBlockRequestToSignedBuilderBid msgLowSameBuilder
            epLowSameBuilder "relayPk")
        | some b =>
          if b.value < 5 then
            some (BuilderSubmitBlockRequestToSignedBuilderBid msgLowSameBuilder
              epLowSameBuilder "relayPk")
          else some b :=
  c3_replace_iff_strictly_greater submitEnvOk 0 storeAfterHigh reqLowSameBuilder
    msgLowSameBuilder epLowSameBuilder rfl rfl rfl rfl (by decide) (by decide)
    rfl rfl rfl rfl

/-- Claim C10: a submission that passes every gate but whose value is not
strictly greater than the current top bid gets HTTP 200 while the whole
result is exactly the no-op outcome: the store (top bids and payload escrow)
is unchanged, one audit row with isMostProfitable = false is written, and in
particular the losing payload is not escrowed, so no getPayload read can ever
see it. -/
theorem c10_losing_submission_frame (env : SubmitEnv) (headSlot : Nat)
    (st : RelayStore) (p : BuilderSubmitBlockRequest)
    (msg : BidTrace) (ep : ExecutionPayload) (b : SignedBuilderBid)
    (hm : p.message = some msg) (hep : p.executionPayload = some ep)
    (hbl : env.builderIsBlacklisted = false)
    (hlp : (env.ffDisableLowPrioBuilders && !env.builderIsHighPrio) = false)
    (hslot : headSlot < msg.slot)
    (hv : ¬(msg.value = 0 ∨ ep.transactions.length = 0))
    (hsan : VerifyBuilderBlockSubmission msg ep = none)
    (hsig : env.sigOk = true)
    (hctx : env.ctxCancelled = false)
    (hsim : env.simOutcome = SimOutcome.reply none)
    (hprev : st.getGetHeaderResponse msg.slot msg.parentHash msg.proposerPubkey
      = some b)
    (hle : msg.value ≤ b.value) :
    handleSubmitNewBlock env headSlot st p
        = ⟨200, none, 0, [⟨msg, none, false⟩], st⟩ ∧
    (handleSubmitNewBlock env headSlot st p).store = st ∧
    (∀ slot pk bh,
      (handleSubmitNewBlock env headSlot st p).store.getGetPayloadResponse slot pk bh
        = st.getGetPayloadResponse slot pk bh) ∧
    (st.getGetPayloadResponse msg.slot msg.proposerPubkey msg.blockHash = none →
      (handleSubmitNewBlock env headSlot st p).store.getGetPayloadResponse
          msg.slot msg.proposerPubkey msg.blockHash = none) := by
  have hnlt : ¬ b.value < msg.value := by omega
  have heq : handleSubmitNewBlock env headSlot st p
      = ⟨200, none, 0, [⟨msg, none, false⟩], st⟩ := by
    rw [submit_after_gates env headSlot st p msg ep hm hep hbl hlp hslot hv hsan hsig]
    simp only [hctx, hsim, blockSimRateLimiterSend, if_false, Bool.false_eq_true,
      ite_false, hprev, hnlt]
  refine ⟨heq, ?_, ?_, ?_⟩
  · rw [heq]
  · intro slot pk bh; rw [heq]
  · intro h0; rw [heq]; exact h0

theorem c10_losing_submission_frame_witness :
    handleSubmitNewBlock submitEnvOk 0 storeAfterHigh reqLowSameBuilder
        = ⟨200, none, 0, [⟨msgLowSameBuilder, none, false⟩], storeAfterHigh⟩ ∧
    (handleSubmitNewBlock submitEnvOk 0 storeAfterHigh reqLowSameBuilder).store
        = storeAfterHigh ∧
    (∀ slot pk bh,
      (handleSubmitNewBlock submitEnvOk 0 storeAfterHigh
          reqLowSameBuilder).store.getGetPayloadResponse slot pk bh
        = storeAfterHigh.getGetPayloadResponse slot pk bh) ∧
    (storeAfterHigh.getGetPayloadResponse 5 "prop" "bh2" = none →
      (handleSubmitNewBlock submitEnvOk 0 storeAfterHigh
          reqLowSameBuilder).store.getGetPayloadResponse 5 "prop" "bh2" = none) :=
  c10_losing_submission_frame submitEnvOk 0 storeAfterHigh reqLowSameBuilder
    msgLowSameBuilder epLowSameBuilder
    (BuilderSubmitBlockRequestToSignedBuilderBid msgHigh epHigh "relayPk")
    rfl rfl rfl rfl (by decide) (by decide) rfl rfl rfl rfl (by decide) (by decide)

/-- The store after builder a resubmitted, for the same auction, value 5
following its accepted value-10 bid. -/
def storeAfterSameBuilderLower : RelayStore :=
  (handleSubmitNewBlock submitEnvOk 0 storeAfterHigh reqLowSameBuilder).store

/-- Claim C1 is false on the code: the submission handler carries no
cancellation path (the request type has no cancellations flag and the
handler compares values only), so a later submission from the same builder
with a lower value does not replace that builder's own top bid — the top bid
for the auction stays at value 10 instead of becoming the value-5 bid the
claim requires. -/
theorem c1_cancellation_counterexample :
    msgLowSameBuilder.builderPubkey = msgHigh.builderPubkey ∧
    storeAfterHigh.getGetHeaderResponse 5 "ph" "prop"
      = some (BuilderSubmitBlockRequestToSignedBuilderBid msgHigh epHigh "relayPk") ∧
    msgLowSameBuilder.value < msgHigh.value ∧
    (handleSubmitNewBlock submitEnvOk 0 storeAfterHigh reqLowSameBuilder).status
      = 200 ∧
    storeAfterSameBuilderLower.getGetHeaderResponse 5 "ph" "prop"
      = some (BuilderSubmitBlockRequestToSignedBuilderBid msgHigh epHigh "relayPk") ∧
    storeAfterSameBuilderLower.getGetHeaderResponse 5 "ph" "prop"
      ≠ some (BuilderSubmitBlockRequestToSignedBuilderBid msgLowSameBuilder
          epLowSameBuilder "relayPk") := by
  decide

/-- Claim C1 (amended): submit_block implements no cancellation semantics at
all: whatever the environment (builder identity, flags, statuses), a
submission whose value does not exceed the current top bid for its AuctionKey
leaves that top bid unchanged — in particular a builder cannot lower or
retract its own bid. -/
theorem c1_no_cancellation_support (env : SubmitEnv) (headSlot : Nat)
    (st : RelayStore) (p : BuilderSubmitBlockRequest)
    (msg : BidTrace) (ep : ExecutionPayload) (b : SignedBuilderBid)
    (hm : p.message = some msg) (hep : p.executionPayload = some ep)
    (hprev : st.getGetHeaderResponse msg.slot msg.parentHash msg.proposerPubkey
      = some b)
    (hle : msg.value ≤ b.value) :
    (handleSubmitNewBlock env headSlot st p).store.getGetHeaderResponse
        msg.slot msg.parentHash msg.proposerPubkey = some b := by
  have hnlt : ¬ b.value < msg.value := by omega
  simp only [handleSubmitNewBlock, hm, hep]
  repeat' split
  all_goals try exact hprev
  all_goals simp_all
  all_goals omega

theorem c1_no_cancellation_support_witness :
    storeAfterSameBuilderLower.getGetHeaderResponse 5 "ph" "prop"
      = some (BuilderSubmitBlockRequestToSignedBuilderBid msgHigh epHigh
          "relayPk") :=
  c1_no_cancellation_support submitEnvOk 0 storeAfterHigh reqLowSameBuilder
    msgLowSameBuilder epLowSameBuilder
    (BuilderSubmitBlockRequestToSignedBuilderBid msgHigh epHigh "relayPk")
    rfl rfl (by decide) (by decide)

/-- A well-formed parent-hash path parameter: 0x followed by 64 hex digits. -/
def parentHash66 : String :=
  "0xaaaaaaaaaaaaaaaaaaaaaaaaaaaaaaaaaaaaaaaaaaaaaaaaaaaaaaaaaaaaaaaa"

/-- A well-formed pubkey path parameter: 0x followed by 96 hex digits. -/
def pubkey98 : String :=
  "0xbbbbbbbbbbbbbbbbbbbbbbbbbbbbbbbbbbbbbbbbbbbbbbbbbbbbbbbbbbbbbbbbbbbbbbbbbbbbbbbbbbbbbbbbbbbbbbbb"

def c4Bid : SignedBuilderBid := ⟨7, "bh", "relayPk"⟩

def c4Store : RelayStore := ⟨[(⟨1, parentHash66, pubkey98⟩, c4Bid)], []⟩

/-- Claim C4 is false on the code as stated: with the FORCE_GET_HEADER_204
feature flag enabled, a well-formed, non-stale getHeader request whose
AuctionKey has a stored bid of nonzero value is answered 204, not 200 with
the stored header. -/
theorem c4_force204_counterexample :
    parentHash66.length = 66 ∧ pubkey98.length = 98 ∧
    ¬ (1 : Nat) < 0 ∧
    c4Store.getGetHeaderResponse 1 parentHash66 pubkey98 = some c4Bid ∧
    c4Bid.value ≠ 0 ∧
    handleGetHeader true 0 c4Store 1 parentHash66 pubkey98
      = GetHeaderResult.noContent ∧
    handleGetHeader true 0 c4Store 1 parentHash66 pubkey98
      ≠ GetHeaderResult.ok c4Bid := by
  decide

/-- Claim C4 (amended): for every getHeader request with well-formed path
parameters, a stale slot gives 400 "slot is too old"; otherwise, when the
FORCE_GET_HEADER_204 flag is set the response is 204 regardless of the store,
and when it is unset the response is 204 if no top bid is stored or the
stored value is 0, else 200 with the stored signed header. -/
theorem c4_getheader_responses (ff204 : Bool) (headSlot slot : Nat)
    (st : RelayStore) (ph pk : String)
    (hph : ph.length = 66) (hpk : pk.length = 98) :
    (slot < headSlot →
      handleGetHeader ff204 headSlot st slot ph pk
        = GetHeaderResult.badRequest "slot is too old") ∧
    (¬ slot < headSlot → ff204 = true →
      handleGetHeader ff204 headSlot st slot ph pk = GetHeaderResult.noContent) ∧
    (¬ slot < headSlot → ff204 = false →
      handleGetHeader ff204 headSlot st slot ph pk
        = match st.getGetHeaderResponse slot ph pk with
          | none => GetHeaderResult.noContent
          | some bid =>
            if bid.value = 0 then GetHeaderResult.noContent
            else GetHeaderResult.ok bid) := by
  refine ⟨fun h => ?_, fun h hff => ?_, fun h hff => ?_⟩
  · simp [handleGetHeader, hph, hpk, h]
  · simp [handleGetHeader, hph, hpk, h, hff]
  · simp [handleGetHeader, hph, hpk, h, hff]

theorem c4_getheader_responses_witness :
    ((1 : Nat) < 0 →
      handleGetHeader false 0 c4Store 1 parentHash66 pubkey98
        = GetHeaderResult.badRequest "slot is too old") ∧
    (¬ (1 : Nat) < 0 → false = true →
      handleGetHeader false 0 c4Store 1 parentHash66 pubkey98
        = GetHeaderResult.noContent) ∧
    (¬ (1 : Nat) < 0 → false = false →
      handleGetHeader false 0 c4Store 1 parentHash66 pubkey98
        = match c4Store.getGetHeaderResponse 1 parentHash66 pubkey98 with
          | none => GetHeaderResult.noContent
          | some bid =>
            if bid.value = 0 then GetHeaderResult.noContent
            else GetHeaderResult.ok bid) :=
  c4_getheader_responses false 0 1 c4Store parentHash66 pubkey98
    (by decide) (by decide)

/-- getPayload environments and fixtures: a known-validator index map sending
index 0 to pubkey "pk", and an escrow holding a payload for BlockKey
(1, "pk", "bh"). -/
def gpEnvNoIndex : GetPayloadEnv := ⟨[], [], true, false⟩

def gpEnvBadSig : GetPayloadEnv := ⟨[(0, "pk")], [], false, false⟩

def gpEnvOk : GetPayloadEnv := ⟨[(0, "pk")], [], true, false⟩

def gpBlk : SignedBlindedBeaconBlock := ⟨1, 0, "bh"⟩

def gpPayload : ExecutionPayload := ⟨"bh", "ph", "fee", ["tx"]⟩

def gpStore : RelayStore := ⟨[], [(⟨1, "pk", "bh"⟩, gpPayload)]⟩

/-- Claim C8: getPayload answers 400 "could not match proposer index to
pubkey" when the proposer index resolves to no known validator, 400
"could not verify payload signature" when the proposer signature fails under
DomainBeaconProposer, and 400 "no execution payload for this request" when no
escrowed payload exists for the BlockKey. -/
theorem c8_getpayload_400s (env : GetPayloadEnv) (st : RelayStore)
    (blk : SignedBlindedBeaconBlock) :
    (lookupPubkeyByIndex env.knownValidatorsByIndex blk.proposerIndex = none →
      (handleGetPayload env st blk).response
        = GetPayloadResp.badRequest "could not match proposer index to pubkey") ∧
    (∀ pk,
      lookupPubkeyByIndex env.knownValidatorsByIndex blk.proposerIndex = some pk →
      pk ∉ env.unparsablePubkeys → env.sigOk = false →
      (handleGetPayload env st blk).response
        = GetPayloadResp.badRequest "could not verify payload signature") ∧
    (∀ pk,
      lookupPubkeyByIndex env.knownValidatorsByIndex blk.proposerIndex = some pk →
      pk ∉ env.unparsablePubkeys → env.sigOk = true →
      st.getGetPayloadResponse blk.slot pk blk.blockHash = none →
      (handleGetPayload env st blk).response
        = GetPayloadResp.badRequest "no execution payload for this request") := by
  refine ⟨fun h => ?_, fun pk hpk hmem hsig => ?_, fun pk hpk hmem hsig hp => ?_⟩
  · simp [handleGetPayload, h]
  · simp [handleGetPayload, hpk, hmem, hsig]
  · simp [handleGetPayload, hpk, hmem, hsig, hp]

theorem c8_getpayload_400s_witness :
    (handleGetPayload gpEnvNoIndex gpStore gpBlk).response
      = GetPayloadResp.badRequest "could not match proposer index to pubkey" ∧
    (handleGetPayload gpEnvBadSig gpStore gpBlk).response
      = GetPayloadResp.badRequest "could not verify payload signature" ∧
    (handleGetPayload gpEnvOk emptyStore gpBlk).response
      = GetPayloadResp.badRequest "no execution payload for this request" :=
  ⟨(c8_getpayload_400s gpEnvNoIndex gpStore gpBlk).1 rfl,
    (c8_getpayload_400s gpEnvBadSig gpStore gpBlk).2.1 "pk" rfl (by decide) rfl,
    (c8_getpayload_400s gpEnvOk emptyStore gpBlk).2.2 "pk" rfl (by decide) rfl rfl⟩

/-- handleGetPayload never mutates the store: every branch returns it
untouched (in particular the escrow read does not delete the entry). -/
theorem handleGetPayload_store_eq (env : GetPayloadEnv) (st : RelayStore)
    (blk : SignedBlindedBeaconBlock) :
    (handleGetPayload env st blk).store = st := by
  unfold handleGetPayload
  repeat' split
  all_goals rfl

/-- Claim C9: getPayload is idempotent: a successful read leaves the escrow
untouched, and a second call with the same signed blinded block returns the
same execution payload. -/
theorem c9_getpayload_idempotent (env : GetPayloadEnv) (st : RelayStore)
    (blk : SignedBlindedBeaconBlock) (p : ExecutionPayload)
    (h : (handleGetPayload env st blk).response = GetPayloadResp.ok p) :
    (handleGetPayload env st blk).store = st ∧
    (handleGetPayload env ((handleGetPayload env st blk).store) blk).response
      = GetPayloadResp.ok p := by
  have hst := handleGetPayload_store_eq env st blk
  exact ⟨hst, by rw [hst]; exact h⟩

theorem c9_getpayload_idempotent_witness :
    (handleGetPayload gpEnvOk gpStore gpBlk).store = gpStore ∧
    (handleGetPayload gpEnvOk ((handleGetPayload gpEnvOk gpStore gpBlk).store)
        gpBlk).response = GetPayloadResp.ok gpPayload :=
  c9_getpayload_idempotent gpEnvOk gpStore gpBlk gpPayload (by decide)

/-- A schedule running the publish goroutine before the audit-write
goroutine. -/
def c2BadSchedule : List BgTask :=
  [BgTask.publishBlock "bh", BgTask.saveDeliveredPayload 1 "pk" "bh"]

/-- Claim C2 is false on the code: the delivered-payload audit write and the
beacon publish run in two separate goroutines with no synchronization between
them, so a schedule that initiates the publish before the audit record is
written is a legal interleaving of a successful getPayload (the spawn list is
permuted freely), and it violates the audit-before-publish ordering. -/
theorem c2_schedule_counterexample :
    (handleGetPayload gpEnvOk gpStore gpBlk).response
      = GetPayloadResp.ok gpPayload ∧
    gpEnvOk.ffDisableBlockPublishing = false ∧
    List.Perm c2BadSchedule (handleGetPayload gpEnvOk gpStore gpBlk).spawned ∧
    auditBeforePublish c2BadSchedule = false := by
  refine ⟨by decide, rfl, ?_, by decide⟩
  have h : (handleGetPayload gpEnvOk gpStore gpBlk).spawned
      = [BgTask.saveDeliveredPayload 1 "pk" "bh", BgTask.publishBlock "bh"] := by
    decide
  rw [h]
  exact List.Perm.swap (BgTask.saveDeliveredPayload 1 "pk" "bh")
    (BgTask.publishBlock "bh") []

/-- Claim C2 (amended): on every successful getPayload the goroutine that
writes the delivered-payload audit record is spawned before the goroutine
that publishes the beacon block (both exist, and in spawn order the write
precedes the publish); completion of the write before the publish initiates
is not guaranteed. -/
theorem c2_audit_spawned_before_publish (env : GetPayloadEnv) (st : RelayStore)
    (blk : SignedBlindedBeaconBlock) (p : ExecutionPayload)
    (h : (handleGetPayload env st blk).response = GetPayloadResp.ok p) :
    auditBeforePublish (handleGetPayload env st blk).spawned = true ∧
    (handleGetPayload env st blk).spawned.any BgTask.isSave = true ∧
    (handleGetPayload env st blk).spawned.any BgTask.isPublish = true := by
  have hd : (∃ m, (handleGetPayload env st blk).response
        = GetPayloadResp.badRequest m) ∨
      (∃ s pk bh, (handleGetPayload env st blk).spawned
        = [BgTask.saveDeliveredPayload s pk bh, BgTask.publishBlock bh]) := by
    unfold handleGetPayload
    repeat' split
    all_goals first
      | exact Or.inl ⟨_, rfl⟩
      | exact Or.inr ⟨_, _, _, rfl⟩
  rcases hd with ⟨m, hm⟩ | ⟨s, pk, bh, hs⟩
  · rw [hm] at h; cases h
  · rw [hs]
    simp [auditBeforePublish, BgTask.isSave, BgTask.isPublish]

theorem c2_audit_spawned_before_publish_witness :
    auditBeforePublish (handleGetPayload gpEnvOk gpStore gpBlk).spawned = true ∧
    (handleGetPayload gpEnvOk gpStore gpBlk).spawned.any BgTask.isSave = true ∧
    (handleGetPayload gpEnvOk gpStore gpBlk).spawned.any BgTask.isPublish = true :=
  c2_audit_spawned_before_publish gpEnvOk gpStore gpBlk gpPayload (by decide)

/-- The conditional registration write changes exactly the stored timestamp of
its pubkey, to the maximum of the stored and the incoming value. -/
theorem getRegTimestamp_set (st : List (String × Nat)) (pk : String) (ts : Nat)
    (q : String) :
    getRegTimestamp (setValidatorRegistrationTimestampIfNewer st pk ts) q
      = if q = pk then max (getRegTimestamp st q) ts
        else getRegTimestamp st q := by
  unfold setValidatorRegistrationTimestampIfNewer
  by_cases hq : q = pk
  · subst hq
    by_cases hlt : getRegTimestamp st q < ts
    · simp [hlt, getRegTimestamp, Nat.max_eq_right (Nat.le_of_lt hlt)]
    · simp [hlt, Nat.max_eq_left (Nat.not_lt.mp hlt)]
  · by_cases hlt : getRegTimestamp st pk < ts
    · simp only [hlt, if_true, ite_true, getRegTimestamp]
      rw [if_neg (fun h => hq h.symm)]
      simp [hq]
    · simp [hlt, hq]

/-- Across a whole registerValidator batch, no stored registration timestamp
ever decreases. -/
theorem handleRegisterValidator_mono (regs : List RegEntry)
    (st : List (String × Nat)) (q : String) :
    getRegTimestamp st q ≤ getRegTimestamp (handleRegisterValidator st regs) q := by
  induction regs generalizing st with
  | nil => exact Nat.le_refl _
  | cons e rest ih =>
    unfold handleRegisterValidator
    repeat' split
    any_goals exact Nat.le_refl _
    any_goals exact ih st
    exact Nat.le_trans
      (by rw [getRegTimestamp_set]
          split
          · exact Nat.le_max_left _ _
          · exact Nat.le_refl _)
      (ih _)

/-- After a registerValidator batch, the stored timestamp of each pubkey is
the maximum of its previous value and the timestamps the batch saved for it. -/
theorem handleRegisterValidator_max (regs : List RegEntry)
    (st : List (String × Nat)) (q : String) :
    getRegTimestamp (handleRegisterValidator st regs) q
      = List.foldl max (getRegTimestamp st q) (acceptedTimestamps st q regs) := by
  induction regs generalizing st with
  | nil => rfl
  | cons e rest ih =>
    unfold handleRegisterValidator acceptedTimestamps
    repeat' split
    any_goals rfl
    any_goals exact ih st
    all_goals
      rw [ih (setValidatorRegistrationTimestampIfNewer st e.pubkey e.timestamp),
        getRegTimestamp_set]
    · rename_i hpq
      simp [hpq]
    · rename_i hpq
      have hq2 : ¬ q = e.pubkey := fun h => hpq h.symm
      simp [hq2]

/-- A pubkey with a stored timestamp of 10 and a batch trying to lower it
to 5. -/
def regSt0 : List (String × Nat) := [("p1", 10)]

def regE0 : RegEntry := ⟨true, "p1", 5, false, true, SigCheck.valid⟩

/-- Claim C5: the stored registration timestamp of every pubkey is the
maximum over all previously accepted registration timestamps: the handler
silently skips an entry whose timestamp does not exceed the stored one, the
cache setter overwrites only with a strictly newer timestamp (its result is
the maximum of stored and incoming), hence across any batch the stored
timestamp never decreases and ends at the maximum of its previous value and
the accepted timestamps. -/
theorem c5_registration_timestamp_monotone (st : List (String × Nat))
    (regs rest : List RegEntry) (e : RegEntry) (q pk : String) (ts : Nat) :
    (e.hasMessage = true → e.tooFarInFuture = false → e.isKnownValidator = true →
      e.timestamp ≤ getRegTimestamp st e.pubkey →
      handleRegisterValidator st (e :: rest) = handleRegisterValidator st rest) ∧
    (getRegTimestamp (setValidatorRegistrationTimestampIfNewer st pk ts) pk
      = max (getRegTimestamp st pk) ts) ∧
    (getRegTimestamp st q ≤ getRegTimestamp (handleRegisterValidator st regs) q) ∧
    (getRegTimestamp (handleRegisterValidator st regs) q
      = List.foldl max (getRegTimestamp st q) (acceptedTimestamps st q regs)) := by
  refine ⟨fun h1 h2 h3 h4 => ?_, ?_,
    handleRegisterValidator_mono regs st q, handleRegisterValidator_max regs st q⟩
  · simp [handleRegisterValidator, h1, h2, h3, h4]
  · rw [getRegTimestamp_set]
    simp

theorem c5_registration_timestamp_monotone_witness :
    (handleRegisterValidator regSt0 (regE0 :: [])
      = handleRegisterValidator regSt0 []) ∧
    (getRegTimestamp (setValidatorRegistrationTimestampIfNewer regSt0 "p1" 7) "p1"
      = max (getRegTimestamp regSt0 "p1") 7) ∧
    (getRegTimestamp regSt0 "p1"
      ≤ getRegTimestamp (handleRegisterValidator regSt0 [regE0]) "p1") ∧
    (getRegTimestamp (handleRegisterValidator regSt0 [regE0]) "p1"
      = List.foldl max (getRegTimestamp regSt0 "p1")
          (acceptedTimestamps regSt0 "p1" [regE0])) := by
  have h := c5_registration_timestamp_monotone regSt0 [regE0] [] regE0 "p1" "p1" 7
  exact ⟨h.1 rfl rfl rfl (by decide), h.2.1, h.2.2.1, h.2.2.2⟩

end BoostRelay
